import Mathlib

/-!
Verification of the hospital surge-prediction pipeline
(backend services: predictor, decision logic, reason engine,
cache, enrichment, feature assembly, forecasting persistence).

Numbers are modelled as rationals; Python `round(x, 3)` is modelled as
round-half-to-even at three decimal places; Python `int(...)` truncation
is modelled by `pyint`; functions that can raise are modelled in `Except`.
-/

set_option autoImplicit false

namespace Hospital

/-- Truncation toward zero, the behaviour of Python `int(...)` on a number. -/
def pyint (x : ℚ) : ℤ :=
  if 0 ≤ x then ⌊x⌋ else ⌈x⌉

/-- Round to the nearest integer, ties to the even integer
(Python `round` semantics). -/
def roundHalfEven (x : ℚ) : ℤ :=
  if x - ⌊x⌋ < 1/2 then ⌊x⌋
  else if 1/2 < x - ⌊x⌋ then ⌊x⌋ + 1
  else if ⌊x⌋ % 2 = 0 then ⌊x⌋ else ⌊x⌋ + 1

/-- Python `round(x, 3)`: round-half-even at three decimal places. -/
def pyround3 (x : ℚ) : ℚ :=
  (roundHalfEven (1000 * x) : ℚ) / 1000

/-- The ordered 11-feature vector consumed by the ML model
(`FeatureAssembler.REQUIRED_FEATURES`). Binary indicator fields are
numeric 0/1 values, as produced by `derive_fields`/`enrich_calendar`. -/
structure Features where
  icu_occupancy_pct : ℚ
  daily_patients : ℚ
  staff_on_duty : ℚ
  oxygen_low : ℚ
  medicine_low : ℚ
  temp_max : ℚ
  rain_mm : ℚ
  weather_severity : ℚ
  is_weekend : ℚ
  is_festival : ℚ
  seasonal_illness_weight : ℚ
deriving DecidableEq

/-- The numeric prediction dictionary returned by the predictor:
three numeric fields plus the fallback flag. -/
structure MLPred where
  risk_score : ℚ
  expected_er_increase_pct : ℚ
  expected_icu_increase_pct : ℚ
  is_fallback : Bool
deriving DecidableEq

/-- An injected model's `predict` call: it may return a prediction or
raise (modelled as `Except.error`). -/
def ModelFn : Type := Features → Except String MLPred

namespace PredictorService

/-- `PredictorService._rule_based_fallback`: conservative rule-based
predictions when the ML model is unavailable.  Python truthiness of the
numeric 0/1 indicators is `≠ 0`; the returned values pass through
`round(·, 3)`. -/
def rule_based_fallback (f : Features) : MLPred :=
  let base_risk0 := f.icu_occupancy_pct * (6/10)
  let base_risk1 :=
    if f.oxygen_low ≠ 0 ∨ f.medicine_low ≠ 0 then base_risk0 + 2/10 else base_risk0
  let base_risk2 := if f.is_weekend ≠ 0 then base_risk1 + 1/10 else base_risk1
  let risk_score := min base_risk2 1
  let er_surge : ℚ := if 1/2 < risk_score then 15/100 else 10/100
  let icu_surge : ℚ := if 1/2 < risk_score then 10/100 else 5/100
  { risk_score := pyround3 risk_score
    expected_er_increase_pct := pyround3 er_surge
    expected_icu_increase_pct := pyround3 icu_surge
    is_fallback := true }

/-- `PredictorService.predict`: pure inference when a model is present
and its call succeeds; otherwise the rule-based fallback.  The
surrounding `try`/`except` is modelled by matching on the `Except`
result of the model call; the function itself never raises, so its
result type is `Except`-free on the error side only through `.ok`. -/
def predict (model : Option ModelFn) (f : Features) : Except String MLPred :=
  match model with
  | none => .ok (rule_based_fallback f)
  | some m =>
    match m f with
    | .ok p => .ok p
    | .error _ => .ok (rule_based_fallback f)

end PredictorService

namespace DecisionLogic

/-- `DecisionLogic.PATIENTS_PER_STAFF`. -/
def PATIENTS_PER_STAFF : ℤ := 10

/-- `DecisionLogic.classify_risk_level`. -/
def classify_risk_level (risk_score : ℚ) : String :=
  if 75/100 < risk_score then "Critical"
  else if 50/100 < risk_score then "High"
  else if 30/100 < risk_score then "Elevated"
  else "Normal"

/-- `DecisionLogic.calculate_additional_beds`:
`int(max(0, np.ceil(total_icu_beds * expected_icu_increase_pct)))`. -/
def calculate_additional_beds (total_icu_beds : ℤ) (expected_icu_increase_pct : ℚ) : ℤ :=
  let additional : ℚ := (⌈(total_icu_beds : ℚ) * expected_icu_increase_pct⌉ : ℚ)
  pyint (max 0 additional)

/-- `DecisionLogic.calculate_additional_staff`. -/
def calculate_additional_staff (daily_patients current_staff : ℤ)
    (expected_er_increase_pct : ℚ) (patients_per_staff : ℤ) : ℤ :=
  let total_expected : ℚ := (daily_patients : ℚ) * (1 + expected_er_increase_pct)
  let ideal_staff : ℚ := (⌈total_expected / (patients_per_staff : ℚ)⌉ : ℚ)
  let additional : ℚ := ideal_staff - (current_staff : ℚ)
  pyint (max 0 additional)

/-- `DecisionLogic.determine_supply_status`. -/
def determine_supply_status (expected_er_increase_pct : ℚ)
    (oxygen_status medicine_status : String) : String :=
  let high_surge := 2/10 < expected_er_increase_pct
  let supply_shortage := oxygen_status = "low" ∨ medicine_status = "low"
  if high_surge ∧ supply_shortage then "Low" else "Stable"

end DecisionLogic

/-- Rank of a risk level in the ordered scale Normal < Elevated < High <
Critical (used to state monotonicity of the classification). -/
def levelRank (s : String) : ℕ :=
  if s = "Critical" then 3
  else if s = "High" then 2
  else if s = "Elevated" then 1
  else 0

/-- The unrounded fallback base risk written as the spec phrases it
(a sum of independent contributions), for comparison with the
sequential accumulation performed by `rule_based_fallback`. -/
def specFallbackBase (f : Features) : ℚ :=
  f.icu_occupancy_pct * (6/10)
  + (if f.oxygen_low ≠ 0 ∨ f.medicine_low ≠ 0 then 2/10 else 0)
  + (if f.is_weekend ≠ 0 then 1/10 else 0)

/-- A feature vector with ICU occupancy 1/7 and every risk flag off;
the fallback risk 3/35 is not representable in three decimal places. -/
def oneSeventhFeatures : Features :=
  { icu_occupancy_pct := 1/7
    daily_patients := 100
    staff_on_duty := 10
    oxygen_low := 0
    medicine_low := 0
    temp_max := 30
    rain_mm := 0
    weather_severity := 3/10
    is_weekend := 0
    is_festival := 0
    seasonal_illness_weight := 3/10 }

namespace EnrichmentService

/-- `EnrichmentService._calculate_severity`. -/
def calculate_severity (temp rain : ℚ) : ℚ :=
  let score0 : ℚ := 0
  let score1 := if 35 < temp then score0 + (temp - 35) * (5/100) else score0
  let score2 := if 5 < rain then score1 + (rain - 5) * (2/100) else score1
  min (max score2 0) 1

/-- The fields of an OpenWeatherMap payload that
`_process_weather_data` reads, each possibly missing. -/
structure RawWeather where
  main_temp_max : Option ℚ
  rain_1h : Option ℚ
  rain_3h : Option ℚ

/-- The weather triple returned by the enrichment service. -/
structure WeatherResult where
  temp_max : ℚ
  rain_mm : ℚ
  weather_severity : ℚ
deriving DecidableEq

/-- `EnrichmentService._process_weather_data`:
`main.get("temp_max", 30.0)` and `rain.get("1h", rain.get("3h", 0.0))`. -/
def process_weather_data (data : RawWeather) : WeatherResult :=
  let temp_max := data.main_temp_max.getD 30
  let rain_mm := data.rain_1h.getD (data.rain_3h.getD 0)
  { temp_max := temp_max
    rain_mm := rain_mm
    weather_severity := calculate_severity temp_max rain_mm }

/-- `EnrichmentService._get_fallback_weather`. -/
def get_fallback_weather : WeatherResult :=
  { temp_max := 30, rain_mm := 0, weather_severity := 3/10 }

/-- `EnrichmentService.get_today_weather`, modelled on the value it
returns: the cached entry when one is present, the processed payload
when the API fetch succeeds, and the fixed fallback when the fetch
raises (missing `WEATHER_API_KEY` or request failure).  The cache write
on the success path does not change the returned value and is covered
by the cache-service model. -/
def get_today_weather (cached : Option WeatherResult)
    (fetched : Except String RawWeather) : WeatherResult :=
  match cached with
  | some c => c
  | none =>
    match fetched with
    | .ok data => process_weather_data data
    | .error _ => get_fallback_weather

end EnrichmentService

/-- Python exception values that the modelled services can raise. -/
inductive PyError
  | zeroDivisionError
  | keyError (key : String)
  | valueError (missing : List String)
deriving DecidableEq

namespace FeatureAssembler

/-- A raw hospital snapshot (a Python dict): each required field may be
present or absent. -/
structure HospitalData where
  icu_occupied : Option ℚ
  icu_total : Option ℚ
  daily_patients : Option ℚ
  staff_on_duty : Option ℚ
  oxygen_status : Option String
  medicine_status : Option String

/-- The missing required fields, in the order
`validate_hospital_data` lists them. -/
def missing_fields (h : HospitalData) : List String :=
  (if h.icu_occupied.isNone then ["icu_occupied"] else [])
  ++ (if h.icu_total.isNone then ["icu_total"] else [])
  ++ (if h.daily_patients.isNone then ["daily_patients"] else [])
  ++ (if h.staff_on_duty.isNone then ["staff_on_duty"] else [])
  ++ (if h.oxygen_status.isNone then ["oxygen_status"] else [])
  ++ (if h.medicine_status.isNone then ["medicine_status"] else [])

/-- `FeatureAssembler.validate_hospital_data`: raises `ValueError` with
the missing field names exactly when some required field is absent. -/
def validate_hospital_data (h : HospitalData) : Except PyError Unit :=
  if missing_fields h = [] then .ok ()
  else .error (.valueError (missing_fields h))

/-- Python dict subscription `d[key]` for a numeric field:
raises `KeyError` when absent. -/
def dictGet (v : Option ℚ) (key : String) : Except PyError ℚ :=
  match v with
  | some x => .ok x
  | none => .error (.keyError key)

/-- Python dict subscription for a string field. -/
def dictGetS (v : Option String) (key : String) : Except PyError String :=
  match v with
  | some x => .ok x
  | none => .error (.keyError key)

/-- Python division: raises `ZeroDivisionError` on a zero divisor. -/
def pydivQ (a b : ℚ) : Except PyError ℚ :=
  if b = 0 then .error .zeroDivisionError else .ok (a / b)

/-- The derived fields computed by `derive_fields`. -/
structure DerivedFields where
  icu_occupancy_pct : ℚ
  daily_patients : ℚ
  staff_on_duty : ℚ
  oxygen_low : ℚ
  medicine_low : ℚ
deriving DecidableEq

/-- `FeatureAssembler.derive_fields`: the occupancy is the unguarded
quotient `icu_occupied / icu_total`, the binary indicators come from
string comparison with "low". -/
def derive_fields (h : HospitalData) : Except PyError DerivedFields :=
  match dictGet h.icu_occupied "icu_occupied" with
  | .error e => .error e
  | .ok occupied =>
  match dictGet h.icu_total "icu_total" with
  | .error e => .error e
  | .ok total =>
  match pydivQ occupied total with
  | .error e => .error e
  | .ok occupancy =>
  match dictGet h.daily_patients "daily_patients" with
  | .error e => .error e
  | .ok daily =>
  match dictGet h.staff_on_duty "staff_on_duty" with
  | .error e => .error e
  | .ok staff =>
  match dictGetS h.oxygen_status "oxygen_status" with
  | .error e => .error e
  | .ok oxy =>
  match dictGetS h.medicine_status "medicine_status" with
  | .error e => .error e
  | .ok med =>
    .ok { icu_occupancy_pct := occupancy
          daily_patients := daily
          staff_on_duty := staff
          oxygen_low := if oxy = "low" then 1 else 0
          medicine_low := if med = "low" then 1 else 0 }

end FeatureAssembler

/-- The backend-only enrichment context passed to the reason engine
(a Python dict read with `.get`). -/
structure BackendContext where
  temp_max : Option ℚ
  rain_mm : Option ℚ
  is_weekend : Option ℚ
  is_festival : Option ℚ
  seasonal_illness_weight : Option ℚ

/-- Python truthiness of an optional numeric dict entry: `None`, a
missing key and `0` are falsy. -/
def truthy (o : Option ℚ) : Bool :=
  match o with
  | none => false
  | some x => decide (x ≠ 0)

/-- The traceable reasons `ReasonEngine.generate_reasons` can emit, in
tagged form; each constructor carries the numbers interpolated into the
emitted string. -/
inductive Reason
  | icuCritical (pct : ℚ)
  | icuHigh (pct : ℚ)
  | extremeHeat (temp : ℚ)
  | heatwave (temp : ℚ)
  | extremeRain (rain : ℚ)
  | heavyRain (rain : ℚ)
  | staffShortage (staff : ℚ)
  | weekend
  | festival
  | oxygenLow
  | medicineLow
  | seasonalIllness (weight : ℚ)
deriving DecidableEq

namespace ReasonEngine

/-- `ReasonEngine.THRESHOLDS["icu_occupancy_high"]`. -/
def icu_occupancy_high : ℚ := 80/100
/-- `ReasonEngine.THRESHOLDS["icu_occupancy_critical"]`. -/
def icu_occupancy_critical : ℚ := 90/100
/-- `ReasonEngine.THRESHOLDS["temp_heatwave"]`. -/
def temp_heatwave : ℚ := 38
/-- `ReasonEngine.THRESHOLDS["temp_extreme"]`. -/
def temp_extreme : ℚ := 42
/-- `ReasonEngine.THRESHOLDS["rain_heavy"]`. -/
def rain_heavy : ℚ := 30
/-- `ReasonEngine.THRESHOLDS["rain_extreme"]`. -/
def rain_extreme : ℚ := 50
/-- `ReasonEngine.THRESHOLDS["staff_shortage"]`. -/
def staff_shortage : ℚ := 8

/-- `ReasonEngine.generate_reasons`: the ordered reason list.  Dict
reads follow the source (`feature_vector.get("icu_occupancy_pct", 0)`
is total on the assembled vector; `hospital_data.get` and
`backend_context.get` use the source defaults; `if temp and ...` is
Python truthiness of the optional value). -/
def generate_reasons (fv : Features) (hd : FeatureAssembler.HospitalData)
    (c : BackendContext) : List Reason :=
  let icuReasons : List Reason :=
    if icu_occupancy_critical < fv.icu_occupancy_pct then
      [Reason.icuCritical fv.icu_occupancy_pct]
    else if icu_occupancy_high < fv.icu_occupancy_pct then
      [Reason.icuHigh fv.icu_occupancy_pct]
    else []
  let tempReasons : List Reason :=
    match c.temp_max with
    | none => []
    | some t =>
      if t ≠ 0 ∧ temp_extreme < t then [Reason.extremeHeat t]
      else if t ≠ 0 ∧ temp_heatwave < t then [Reason.heatwave t]
      else []
  let rain := c.rain_mm.getD 0
  let rainReasons : List Reason :=
    if rain_extreme < rain then [Reason.extremeRain rain]
    else if rain_heavy < rain then [Reason.heavyRain rain]
    else []
  let staff := hd.staff_on_duty.getD 0
  let staffReasons : List Reason :=
    if staff < staff_shortage then [Reason.staffShortage staff] else []
  let weekendReasons : List Reason :=
    if truthy c.is_weekend then [Reason.weekend] else []
  let festivalReasons : List Reason :=
    if truthy c.is_festival then [Reason.festival] else []
  let oxygenReasons : List Reason :=
    if hd.oxygen_status = some "low" then [Reason.oxygenLow] else []
  let medicineReasons : List Reason :=
    if hd.medicine_status = some "low" then [Reason.medicineLow] else []
  let seasonal := c.seasonal_illness_weight.getD 0
  let seasonalReasons : List Reason :=
    if 7/10 < seasonal then [Reason.seasonalIllness seasonal] else []
  icuReasons ++ tempReasons ++ rainReasons ++ staffReasons
    ++ weekendReasons ++ festivalReasons ++ oxygenReasons
    ++ medicineReasons ++ seasonalReasons

end ReasonEngine

/-- Whether a reason list contains the critical-ICU-occupancy reason. -/
def hasIcuCriticalReason (rs : List Reason) : Bool :=
  rs.any fun r =>
    match r with
    | Reason.icuCritical _ => true
    | _ => false

/-- Scenario A feature vector: occupancy 36/40, oxygen low, weekend;
`weather_severity` is `calculate_severity 43 60` clamped to 1. -/
def scenarioAFeatures : Features :=
  { icu_occupancy_pct := 36/40
    daily_patients := 120
    staff_on_duty := 10
    oxygen_low := 1
    medicine_low := 0
    temp_max := 43
    rain_mm := 60
    weather_severity := 1
    is_weekend := 1
    is_festival := 0
    seasonal_illness_weight := 3/10 }

/-- Scenario A raw hospital snapshot. -/
def scenarioAHospital : FeatureAssembler.HospitalData :=
  { icu_occupied := some 36
    icu_total := some 40
    daily_patients := some 120
    staff_on_duty := some 10
    oxygen_status := some "low"
    medicine_status := some "normal" }

/-- Scenario A backend context. -/
def scenarioAContext : BackendContext :=
  { temp_max := some 43
    rain_mm := some 60
    is_weekend := some 1
    is_festival := some 0
    seasonal_illness_weight := some (3/10) }

namespace CacheService

/-- One cached entry of a tier: the stored value with its absolute
expiry instant (time is an integer UTC clock). -/
structure Entry (V : Type) where
  value : V
  expires_at : ℤ

/-- The two cache tiers: the in-process dictionary and the persistent
`cached_data` table, each a partial map over keys. -/
structure State (V : Type) where
  memory : String → Option (Entry V)
  dbTier : String → Option (Entry V)

/-- Point update of a tier. -/
def updateTier {V : Type} (m : String → Option (Entry V)) (k : String)
    (e : Option (Entry V)) : String → Option (Entry V) :=
  fun k2 => if k2 = k then e else m k2

/-- The persistent-tier half of `CacheService.get`: an unexpired row is
promoted into the memory tier and returned; an expired row is deleted
from the persistent tier. -/
def getDb {V : Type} (key : String) (now : ℤ) (s : State V) :
    Option V × State V :=
  match s.dbTier key with
  | some entry =>
    if now < entry.expires_at then
      (some entry.value, { s with memory := updateTier s.memory key (some entry) })
    else
      (none, { s with dbTier := updateTier s.dbTier key none })
  | none => (none, s)

/-- `CacheService.get`: the memory tier is consulted first; an expired
memory entry is removed and the lookup falls through to the persistent
tier. -/
def get {V : Type} (key : String) (now : ℤ) (s : State V) :
    Option V × State V :=
  match s.memory key with
  | some entry =>
    if now < entry.expires_at then (some entry.value, s)
    else getDb key now { s with memory := updateTier s.memory key none }
  | none => getDb key now s

/-- `CacheService.set`: writes both tiers with
`expires_at = now + ttl_seconds`. -/
def set {V : Type} (key : String) (value : V) (ttl_seconds now : ℤ)
    (s : State V) : State V :=
  let expires_at := now + ttl_seconds
  { memory := updateTier s.memory key (some ⟨value, expires_at⟩)
    dbTier := updateTier s.dbTier key (some ⟨value, expires_at⟩) }

end CacheService

/-- A cache state over ℕ values with empty tiers. -/
def emptyCacheState : CacheService.State ℕ :=
  { memory := fun _ => none, dbTier := fun _ => none }

/-- A cache state whose memory tier holds an unexpired entry at "m". -/
def memHitCacheState : CacheService.State ℕ :=
  { memory := fun k => if k = "m" then some ⟨42, 10⟩ else none
    dbTier := fun _ => none }

/-- A cache state whose persistent tier holds an entry at "w" that
expires at time 3. -/
def dbExpiredCacheState : CacheService.State ℕ :=
  { memory := fun _ => none
    dbTier := fun k => if k = "w" then some ⟨7, 3⟩ else none }

namespace ForecastService

/-- The persisted prediction row: the unique key pair and every field
the pipeline writes on both the insert path and the update path. -/
structure PredictionRecord where
  hospital_id : ℕ
  date : ℕ
  risk_score : ℚ
  er_surge_pct : ℚ
  icu_surge_pct : ℚ
  risk_level : String
  additional_icu_beds : ℤ
  additional_staff : ℤ
  supply_status : String
  input_features : Features
  is_fallback : ℕ
deriving DecidableEq

/-- Key match on the unique pair (hospital_id, date) enforced by
`unique_prediction_per_hospital_per_day`. -/
def sameKey (hid d : ℕ) (p : PredictionRecord) : Bool :=
  p.hospital_id == hid && p.date == d

/-- Overwrite the first row matching the new row's key
(`db.query(...).filter(...).first()` followed by assignment of every
persisted field). -/
def replaceFirst : List PredictionRecord → PredictionRecord → List PredictionRecord
  | [], _ => []
  | p :: rest, r =>
    if sameKey r.hospital_id r.date p then r :: rest
    else p :: replaceFirst rest r

/-- The persistence step of `get_predictions_and_resources`: update the
existing row for (hospital_id, date) when one exists, otherwise insert
a new row. -/
def upsert (db : List PredictionRecord) (r : PredictionRecord) :
    List PredictionRecord :=
  match db.find? (sameKey r.hospital_id r.date) with
  | some _ => replaceFirst db r
  | none => db ++ [r]

end ForecastService

/-- A concrete first-run prediction row. -/
def runOneRecord : ForecastService.PredictionRecord :=
  { hospital_id := 1
    date := 5
    risk_score := 3/10
    er_surge_pct := 1/10
    icu_surge_pct := 5/100
    risk_level := "Normal"
    additional_icu_beds := 2
    additional_staff := 0
    supply_status := "Stable"
    input_features := oneSeventhFeatures
    is_fallback := 1
    }

/-- A concrete second-run prediction row for the same hospital and day
with different values. -/
def runTwoRecord : ForecastService.PredictionRecord :=
  { hospital_id := 1
    date := 5
    risk_score := 84/100
    er_surge_pct := 15/100
    icu_surge_pct := 1/10
    risk_level := "Critical"
    additional_icu_beds := 4
    additional_staff := 3
    supply_status := "Low"
    input_features := scenarioAFeatures
    is_fallback := 0
    }

/-- A snapshot with all six required fields present and `icu_total = 0`. -/
def zeroIcuSnapshot : FeatureAssembler.HospitalData :=
  { icu_occupied := some 10
    icu_total := some 0
    daily_patients := some 100
    staff_on_duty := some 12
    oxygen_status := some "normal"
    medicine_status := some "normal" }

/-- Truncating an integer-valued rational clamped below by `0` gives the
integer clamp. -/
theorem pyint_max_zero_intCast (z : ℤ) : pyint (max 0 (z : ℚ)) = max 0 z := by
  rcases le_or_lt 0 z with hz | hz
  · have hz' : (0 : ℚ) ≤ (z : ℚ) := by exact_mod_cast hz
    rw [max_eq_right hz', max_eq_right hz]
    simp [pyint, hz']
  · have hz' : (z : ℚ) ≤ 0 := by exact_mod_cast hz.le
    rw [max_eq_left hz', max_eq_left hz.le]
    simp [pyint]

/-- Truncating the clamped difference of two integer-valued rationals
gives the integer clamp of the difference. -/
theorem pyint_max_zero_sub (a b : ℤ) :
    pyint (max 0 ((a : ℚ) - (b : ℚ))) = max 0 (a - b) := by
  have hc : ((a : ℚ) - (b : ℚ)) = ((a - b : ℤ) : ℚ) := by push_cast; ring
  rw [hc]
  exact pyint_max_zero_intCast _

/-- The rank of the classified level, expressed directly by the
threshold conditions. -/
theorem levelRank_classify (r : ℚ) :
    levelRank (DecisionLogic.classify_risk_level r) =
      if 75/100 < r then 3 else if 50/100 < r then 2 else if 30/100 < r then 1 else 0 := by
  unfold DecisionLogic.classify_risk_level
  split_ifs <;> rfl

/-- C1: for every well-formed 11-feature input, `PredictorService.predict`
never raises (always returns `.ok`) and its result carries the three
numeric fields plus the boolean `is_fallback` (the `MLPred` record), both
when the injected model is absent and when the model call fails. -/
theorem predict_never_raises (model : Option ModelFn) (f : Features) :
    (∃ r : MLPred, PredictorService.predict model f = Except.ok r) ∧
    PredictorService.predict none f
      = Except.ok (PredictorService.rule_based_fallback f) ∧
    ∀ e : String,
      PredictorService.predict (some (fun _ => Except.error e : ModelFn)) f
        = Except.ok (PredictorService.rule_based_fallback f) := by
  refine ⟨?_, rfl, fun e => rfl⟩
  cases model with
  | none => exact ⟨_, rfl⟩
  | some m =>
    cases h : m f with
    | ok p => exact ⟨p, by simp [PredictorService.predict, h]⟩
    | error e =>
      exact ⟨PredictorService.rule_based_fallback f,
        by simp [PredictorService.predict, h]⟩

/-- C3: the derived risk level is the monotone step function of the
risk score with strict breakpoints 0.30, 0.50, 0.75; each exact boundary
value falls to the lower bucket. -/
theorem classify_risk_level_step (r s : ℚ) :
    (75/100 < r → DecisionLogic.classify_risk_level r = "Critical") ∧
    (50/100 < r → r ≤ 75/100 → DecisionLogic.classify_risk_level r = "High") ∧
    (30/100 < r → r ≤ 50/100 → DecisionLogic.classify_risk_level r = "Elevated") ∧
    (r ≤ 30/100 → DecisionLogic.classify_risk_level r = "Normal") ∧
    DecisionLogic.classify_risk_level (75/100) = "High" ∧
    DecisionLogic.classify_risk_level (50/100) = "Elevated" ∧
    DecisionLogic.classify_risk_level (30/100) = "Normal" ∧
    (r ≤ s → levelRank (DecisionLogic.classify_risk_level r)
      ≤ levelRank (DecisionLogic.classify_risk_level s)) := by
  refine ⟨?_, ?_, ?_, ?_, ?_, ?_, ?_, ?_⟩
  · intro h; unfold DecisionLogic.classify_risk_level; rw [if_pos h]
  · intro h1 h2; unfold DecisionLogic.classify_risk_level
    rw [if_neg (by linarith), if_pos h1]
  · intro h1 h2; unfold DecisionLogic.classify_risk_level
    rw [if_neg (by linarith), if_neg (by linarith), if_pos h1]
  · intro h; unfold DecisionLogic.classify_risk_level
    rw [if_neg (by linarith), if_neg (by linarith), if_neg (by linarith)]
  · unfold DecisionLogic.classify_risk_level; norm_num
  · unfold DecisionLogic.classify_risk_level; norm_num
  · unfold DecisionLogic.classify_risk_level; norm_num
  · intro h
    rw [levelRank_classify, levelRank_classify]
    split_ifs <;> first | omega | (exfalso; linarith)

/-- C3 witness: concrete scores land in each bucket and the
classification is monotone across them. -/
theorem classify_risk_level_step_witness :
    DecisionLogic.classify_risk_level (8/10) = "Critical" ∧
    DecisionLogic.classify_risk_level (6/10) = "High" ∧
    DecisionLogic.classify_risk_level (4/10) = "Elevated" ∧
    DecisionLogic.classify_risk_level (2/10) = "Normal" ∧
    levelRank (DecisionLogic.classify_risk_level (2/10))
      ≤ levelRank (DecisionLogic.classify_risk_level (8/10)) :=
  ⟨(classify_risk_level_step (8/10) 1).1 (by norm_num),
   ((classify_risk_level_step (6/10) 1).2.1 (by norm_num) (by norm_num)),
   ((classify_risk_level_step (4/10) 1).2.2.1 (by norm_num) (by norm_num)),
   ((classify_risk_level_step (2/10) 1).2.2.2.1 (by norm_num)),
   ((classify_risk_level_step (2/10) (8/10)).2.2.2.2.2.2.2 (by norm_num))⟩

/-- C4: the derived supply status is `"Low"` exactly when the ER surge
exceeds 0.20 and at least one of the supply statuses is `"low"`; in
every other case it is `"Stable"`. -/
theorem supply_status_iff (er : ℚ) (oxy med : String) :
    DecisionLogic.determine_supply_status er oxy med
      = (if 2/10 < er ∧ (oxy = "low" ∨ med = "low") then "Low" else "Stable") ∧
    (DecisionLogic.determine_supply_status er oxy med = "Low"
      ↔ (2/10 < er ∧ (oxy = "low" ∨ med = "low"))) := by
  have hdef : DecisionLogic.determine_supply_status er oxy med
      = (if 2/10 < er ∧ (oxy = "low" ∨ med = "low") then "Low" else "Stable") := rfl
  refine ⟨hdef, ?_⟩
  rw [hdef]
  split_ifs with h
  · simp [h]
  · simp [h]

/-- C5: additional ICU beds and additional staff follow the stated
ceiling formulas and are always non-negative integers. -/
theorem resource_counts_formula (icu_total daily staff : ℤ) (icu_pct er_pct : ℚ) :
    DecisionLogic.calculate_additional_beds icu_total icu_pct
      = max 0 ⌈(icu_total : ℚ) * icu_pct⌉ ∧
    DecisionLogic.calculate_additional_staff daily staff er_pct
        DecisionLogic.PATIENTS_PER_STAFF
      = max 0 (⌈(daily : ℚ) * (1 + er_pct) / 10⌉ - staff) ∧
    0 ≤ DecisionLogic.calculate_additional_beds icu_total icu_pct ∧
    0 ≤ DecisionLogic.calculate_additional_staff daily staff er_pct
        DecisionLogic.PATIENTS_PER_STAFF := by
  have hbeds : DecisionLogic.calculate_additional_beds icu_total icu_pct
      = max 0 ⌈(icu_total : ℚ) * icu_pct⌉ := by
    unfold DecisionLogic.calculate_additional_beds
    exact pyint_max_zero_intCast _
  have hstaff : DecisionLogic.calculate_additional_staff daily staff er_pct
        DecisionLogic.PATIENTS_PER_STAFF
      = max 0 (⌈(daily : ℚ) * (1 + er_pct) / 10⌉ - staff) := by
    have hdef : DecisionLogic.calculate_additional_staff daily staff er_pct
          DecisionLogic.PATIENTS_PER_STAFF
        = pyint (max 0 ((⌈(daily : ℚ) * (1 + er_pct)
            / ((DecisionLogic.PATIENTS_PER_STAFF : ℤ) : ℚ)⌉ : ℚ) - (staff : ℚ))) := rfl
    have h10 : ((DecisionLogic.PATIENTS_PER_STAFF : ℤ) : ℚ) = 10 := by
      norm_num [DecisionLogic.PATIENTS_PER_STAFF]
    rw [hdef, h10]
    exact pyint_max_zero_sub _ _
  refine ⟨hbeds, hstaff, ?_, ?_⟩
  · rw [hbeds]; exact le_max_left _ _
  · rw [hstaff]; exact le_max_left _ _

/-- Closed form of the rule-based fallback: the sequentially accumulated
base risk equals the spec-style sum of contributions, and every returned
value passes through three-decimal rounding. -/
theorem rule_based_fallback_closed_form (f : Features) :
    PredictorService.rule_based_fallback f =
      { risk_score := pyround3 (min (specFallbackBase f) 1)
        expected_er_increase_pct :=
          pyround3 (if 1/2 < min (specFallbackBase f) 1 then 15/100 else 10/100)
        expected_icu_increase_pct :=
          pyround3 (if 1/2 < min (specFallbackBase f) 1 then 10/100 else 5/100)
        is_fallback := true } := by
  have hb : (if f.is_weekend ≠ 0 then
        (if f.oxygen_low ≠ 0 ∨ f.medicine_low ≠ 0 then
          f.icu_occupancy_pct * (6/10) + 2/10
         else f.icu_occupancy_pct * (6/10)) + 1/10
      else
        (if f.oxygen_low ≠ 0 ∨ f.medicine_low ≠ 0 then
          f.icu_occupancy_pct * (6/10) + 2/10
         else f.icu_occupancy_pct * (6/10)))
      = specFallbackBase f := by
    unfold specFallbackBase
    split_ifs <;> ring
  simp only [PredictorService.rule_based_fallback]
  rw [hb]

/-- C2 counterexample: with the model absent and ICU occupancy 1/7 (all
risk flags off), the returned risk score is the rounded value 43/500,
not the exact fallback value min(0.6·(1/7), 1) = 3/35 stated by the
claim. -/
theorem fallback_rounding_counterexample :
    PredictorService.predict none oneSeventhFeatures
      = Except.ok (PredictorService.rule_based_fallback oneSeventhFeatures) ∧
    (PredictorService.rule_based_fallback oneSeventhFeatures).risk_score = 43/500 ∧
    min ((1/7 : ℚ) * (6/10)) 1 = 3/35 ∧
    (43/500 : ℚ) ≠ 3/35 := by
  have hfloor : ⌊(600/7 : ℚ)⌋ = 85 := by
    rw [Int.floor_eq_iff]
    constructor <;> norm_num
  have hbase : specFallbackBase oneSeventhFeatures = 3/35 := by
    norm_num [specFallbackBase, oneSeventhFeatures]
  have hmin : min (specFallbackBase oneSeventhFeatures) 1 = 3/35 := by
    rw [hbase]
    exact min_eq_left (by norm_num)
  have harg : ((1000 : ℚ) * (3/35)) = 600/7 := by norm_num
  have hround : pyround3 (3/35 : ℚ) = 43/500 := by
    unfold pyround3 roundHalfEven
    rw [harg, hfloor]
    norm_num
  refine ⟨rfl, ?_, by norm_num, by norm_num⟩
  rw [rule_based_fallback_closed_form]
  simpa [hmin] using hround

/-- C2 amended: when the model is absent or its call fails, the result
is the deterministic rule-based fallback with `is_fallback = true`, in
which the risk score is min(0.6·icu + 0.2·[supply low] + 0.1·[weekend], 1)
rounded half-to-even at three decimals, and the surge percentages are
chosen by comparing the unrounded risk score with 0.5. -/
theorem fallback_formula_amended (f : Features) (e : String) :
    PredictorService.rule_based_fallback f =
      { risk_score := pyround3 (min (specFallbackBase f) 1)
        expected_er_increase_pct :=
          pyround3 (if 1/2 < min (specFallbackBase f) 1 then 15/100 else 10/100)
        expected_icu_increase_pct :=
          pyround3 (if 1/2 < min (specFallbackBase f) 1 then 10/100 else 5/100)
        is_fallback := true } ∧
    PredictorService.predict none f
      = Except.ok (PredictorService.rule_based_fallback f) ∧
    PredictorService.predict (some (fun _ => Except.error e : ModelFn)) f
      = Except.ok (PredictorService.rule_based_fallback f) :=
  ⟨rule_based_fallback_closed_form f, rfl, rfl⟩

/-- C9: the computed weather severity is exactly the clamped linear
penalty formula (hence lies in [0,1]), and on fetch failure or missing
credentials the enrichment returns the fixed fallback triple. -/
theorem severity_formula_and_weather_fallback (t r : ℚ) (e : String) :
    EnrichmentService.calculate_severity t r
      = min (max ((max 0 (t - 35)) * (5/100) + (max 0 (r - 5)) * (2/100)) 0) 1 ∧
    0 ≤ EnrichmentService.calculate_severity t r ∧
    EnrichmentService.calculate_severity t r ≤ 1 ∧
    EnrichmentService.get_today_weather none (Except.error e)
      = { temp_max := 30, rain_mm := 0, weather_severity := 3/10 } := by
  have hform : EnrichmentService.calculate_severity t r
      = min (max ((max 0 (t - 35)) * (5/100) + (max 0 (r - 5)) * (2/100)) 0) 1 := by
    simp only [EnrichmentService.calculate_severity]
    rcases le_or_lt t 35 with ht | ht <;> rcases le_or_lt r 5 with hr | hr
    · rw [if_neg (by linarith : ¬ (5:ℚ) < r), if_neg (by linarith : ¬ (35:ℚ) < t),
        max_eq_left (by linarith : t - 35 ≤ 0),
        max_eq_left (by linarith : r - 5 ≤ 0)]
      norm_num
    · rw [if_pos hr, if_neg (by linarith : ¬ (35:ℚ) < t),
        max_eq_left (by linarith : t - 35 ≤ 0),
        max_eq_right (by linarith : (0:ℚ) ≤ r - 5)]
      ring_nf
    · rw [if_neg (by linarith : ¬ (5:ℚ) < r), if_pos ht,
        max_eq_right (by linarith : (0:ℚ) ≤ t - 35),
        max_eq_left (by linarith : r - 5 ≤ 0)]
      ring_nf
    · rw [if_pos hr, if_pos ht,
        max_eq_right (by linarith : (0:ℚ) ≤ t - 35),
        max_eq_right (by linarith : (0:ℚ) ≤ r - 5)]
      ring_nf
  refine ⟨hform, ?_, ?_, rfl⟩
  · rw [hform]
    exact le_min (le_max_right _ _) zero_le_one
  · rw [hform]
    exact min_le_right _ _

/-- C10: a snapshot with all six required fields and `icu_total = 0`
passes `validate_hospital_data` (which only checks presence), and
`derive_fields` then raises `ZeroDivisionError` from the unguarded
division `icu_occupied / icu_total`. -/
theorem validate_ignores_zero_icu_total (hd : FeatureAssembler.HospitalData)
    (h1 : hd.icu_occupied.isSome = true)
    (h2 : hd.icu_total = some 0)
    (h3 : hd.daily_patients.isSome = true)
    (h4 : hd.staff_on_duty.isSome = true)
    (h5 : hd.oxygen_status.isSome = true)
    (h6 : hd.medicine_status.isSome = true) :
    FeatureAssembler.validate_hospital_data hd = Except.ok () ∧
    FeatureAssembler.derive_fields hd = Except.error PyError.zeroDivisionError := by
  obtain ⟨occ, hocc⟩ := Option.isSome_iff_exists.mp h1
  obtain ⟨dp, hdp⟩ := Option.isSome_iff_exists.mp h3
  obtain ⟨st, hst⟩ := Option.isSome_iff_exists.mp h4
  obtain ⟨ox, hox⟩ := Option.isSome_iff_exists.mp h5
  obtain ⟨md, hmd⟩ := Option.isSome_iff_exists.mp h6
  constructor
  · simp [FeatureAssembler.validate_hospital_data, FeatureAssembler.missing_fields,
      hocc, h2, hdp, hst, hox, hmd]
  · simp [FeatureAssembler.derive_fields, FeatureAssembler.dictGet,
      FeatureAssembler.dictGetS, FeatureAssembler.pydivQ,
      hocc, h2, hdp, hst, hox, hmd]

/-- C10 witness: the concrete zero-`icu_total` snapshot validates and
then fails with `ZeroDivisionError`. -/
theorem validate_ignores_zero_icu_total_witness :
    FeatureAssembler.validate_hospital_data zeroIcuSnapshot = Except.ok () ∧
    FeatureAssembler.derive_fields zeroIcuSnapshot
      = Except.error PyError.zeroDivisionError :=
  validate_ignores_zero_icu_total zeroIcuSnapshot rfl rfl rfl rfl rfl rfl

/-- C6 counterexample: on Scenario A (occupancy exactly 0.90) the reason
list contains the high-occupancy ICU reason, not the critical one — the
critical threshold comparison `0.90 < 0.90` is strict and fails. -/
theorem scenarioA_missing_critical_reason :
    ReasonEngine.generate_reasons scenarioAFeatures scenarioAHospital scenarioAContext
      = [Reason.icuHigh (36/40), Reason.extremeHeat 43, Reason.extremeRain 60,
         Reason.weekend, Reason.oxygenLow] ∧
    hasIcuCriticalReason
      (ReasonEngine.generate_reasons scenarioAFeatures scenarioAHospital scenarioAContext)
      = false := by
  have hlist : ReasonEngine.generate_reasons scenarioAFeatures scenarioAHospital
      scenarioAContext
      = [Reason.icuHigh (36/40), Reason.extremeHeat 43, Reason.extremeRain 60,
         Reason.weekend, Reason.oxygenLow] := by
    norm_num [ReasonEngine.generate_reasons, scenarioAFeatures, scenarioAHospital,
      scenarioAContext, ReasonEngine.icu_occupancy_critical,
      ReasonEngine.icu_occupancy_high, ReasonEngine.temp_extreme,
      ReasonEngine.temp_heatwave, ReasonEngine.rain_extreme, ReasonEngine.rain_heavy,
      ReasonEngine.staff_shortage, truthy]
    decide
  refine ⟨hlist, ?_⟩
  rw [hlist]
  rfl

/-- C6 amended: for any inputs matching Scenario A (occupancy 36/40,
temp 43, rain 60, weekend set, oxygen low), the reasons include the
high-occupancy ICU reason (not the critical one, since occupancy 0.90
is not strictly above the 0.90 threshold), the extreme-heat reason, the
extreme-rainfall reason, the weekend reason and the oxygen-low reason,
and the fallback risk score classifies as Critical (hence High or
Critical). -/
theorem scenarioA_reasons_amended (fv : Features)
    (hd : FeatureAssembler.HospitalData) (c : BackendContext)
    (hocc : fv.icu_occupancy_pct = 36/40)
    (htemp : c.temp_max = some 43)
    (hrain : c.rain_mm = some 60)
    (hwk : c.is_weekend = some 1)
    (hoxy : hd.oxygen_status = some "low")
    (hoxyf : fv.oxygen_low = 1)
    (hwkf : fv.is_weekend = 1) :
    Reason.icuHigh (36/40) ∈ ReasonEngine.generate_reasons fv hd c ∧
    Reason.extremeHeat 43 ∈ ReasonEngine.generate_reasons fv hd c ∧
    Reason.extremeRain 60 ∈ ReasonEngine.generate_reasons fv hd c ∧
    Reason.weekend ∈ ReasonEngine.generate_reasons fv hd c ∧
    Reason.oxygenLow ∈ ReasonEngine.generate_reasons fv hd c ∧
    hasIcuCriticalReason (ReasonEngine.generate_reasons fv hd c) = false ∧
    DecisionLogic.classify_risk_level
      (PredictorService.rule_based_fallback fv).risk_score = "Critical" := by
  have hreasons : ReasonEngine.generate_reasons fv hd c
      = [Reason.icuHigh (36/40), Reason.extremeHeat 43, Reason.extremeRain 60]
        ++ (if hd.staff_on_duty.getD 0 < 8 then
              [Reason.staffShortage (hd.staff_on_duty.getD 0)] else [])
        ++ [Reason.weekend]
        ++ (if truthy c.is_festival then [Reason.festival] else [])
        ++ [Reason.oxygenLow]
        ++ (if hd.medicine_status = some "low" then [Reason.medicineLow] else [])
        ++ (if 7/10 < c.seasonal_illness_weight.getD 0 then
              [Reason.seasonalIllness (c.seasonal_illness_weight.getD 0)] else []) := by
    norm_num [ReasonEngine.generate_reasons, hocc, htemp, hrain, hwk, hoxy,
      ReasonEngine.icu_occupancy_critical, ReasonEngine.icu_occupancy_high,
      ReasonEngine.temp_extreme, ReasonEngine.temp_heatwave,
      ReasonEngine.rain_extreme, ReasonEngine.rain_heavy,
      ReasonEngine.staff_shortage, truthy]
  have hbase : specFallbackBase fv = 21/25 := by
    norm_num [specFallbackBase, hocc, hoxyf, hwkf]
  have hmin : min (specFallbackBase fv) 1 = 21/25 := by
    rw [hbase]
    exact min_eq_left (by norm_num)
  have hround : pyround3 (21/25 : ℚ) = 21/25 := by
    unfold pyround3 roundHalfEven
    rw [show ((1000 : ℚ) * (21/25)) = ((840 : ℤ) : ℚ) by norm_num,
      Int.floor_intCast]
    norm_num
  have hrisk : DecisionLogic.classify_risk_level
      (PredictorService.rule_based_fallback fv).risk_score = "Critical" := by
    rw [rule_based_fallback_closed_form]
    show DecisionLogic.classify_risk_level (pyround3 (min (specFallbackBase fv) 1))
      = "Critical"
    rw [hmin, hround]
    unfold DecisionLogic.classify_risk_level
    rw [if_pos (by norm_num : (75:ℚ)/100 < 21/25)]
  refine ⟨?_, ?_, ?_, ?_, ?_, ?_, hrisk⟩
  · rw [hreasons]; simp
  · rw [hreasons]; simp
  · rw [hreasons]; simp
  · rw [hreasons]; simp
  · rw [hreasons]; simp
  · rw [hreasons]
    split_ifs <;> simp [hasIcuCriticalReason]

/-- C6 amended witness: the amended statement instantiated at the
concrete Scenario A structures. -/
theorem scenarioA_reasons_amended_witness :
    Reason.icuHigh (36/40) ∈ ReasonEngine.generate_reasons scenarioAFeatures
      scenarioAHospital scenarioAContext ∧
    DecisionLogic.classify_risk_level
      (PredictorService.rule_based_fallback scenarioAFeatures).risk_score
      = "Critical" := by
  have h := scenarioA_reasons_amended scenarioAFeatures scenarioAHospital
    scenarioAContext rfl rfl rfl rfl rfl rfl rfl
  exact ⟨h.1, h.2.2.2.2.2.2⟩

/-- C7: cache TTL semantics — an entry written with ttl 0 is absent at
any later read; an entry written with ttl 60 is returned by an
immediate read; the in-process tier is consulted first (an unexpired
memory entry is returned as-is); and a persistent-tier hit whose expiry
is in the past is deleted from the persistent tier with the read
reporting absent. -/
theorem cache_ttl_semantics {V : Type} (k : String) (v : V)
    (s : CacheService.State V) (t t' : ℤ) :
    (t ≤ t' → (CacheService.get k t' (CacheService.set k v 0 t s)).1 = none) ∧
    (CacheService.get k t (CacheService.set k v 60 t s)).1 = some v ∧
    (∀ em : CacheService.Entry V, s.memory k = some em → t < em.expires_at →
      (CacheService.get k t s).1 = some em.value) ∧
    (∀ ed : CacheService.Entry V, s.memory k = none → s.dbTier k = some ed →
      ed.expires_at ≤ t →
      (CacheService.get k t s).1 = none ∧
      (CacheService.get k t s).2.dbTier k = none) := by
  refine ⟨?_, ?_, ?_, ?_⟩
  · intro hle
    have hnot : ¬ (t' < t + 0) := by omega
    have hnot2 : ¬ (t' < t) := by omega
    simp [CacheService.get, CacheService.getDb, CacheService.set,
      CacheService.updateTier, hnot, hnot2]
  · have hlt : t < t + 60 := by omega
    simp [CacheService.get, CacheService.set, CacheService.updateTier, hlt]
  · intro em hm hlt
    simp [CacheService.get, hm, hlt]
  · intro ed hm hd hle
    have hnot : ¬ (t < ed.expires_at) := by omega
    constructor
    · simp [CacheService.get, CacheService.getDb, hm, hd, hnot]
    · simp [CacheService.get, CacheService.getDb, CacheService.updateTier,
        hm, hd, hnot]

/-- C7 witness: the TTL semantics at concrete keys, values, times and
states. -/
theorem cache_ttl_semantics_witness :
    (CacheService.get "k" 5 (CacheService.set "k" (37:ℕ) 0 0 emptyCacheState)).1
      = none ∧
    (CacheService.get "k" 0 (CacheService.set "k" (37:ℕ) 60 0 emptyCacheState)).1
      = some 37 ∧
    (CacheService.get "m" 0 memHitCacheState).1 = some 42 ∧
    (CacheService.get "w" 5 dbExpiredCacheState).1 = none ∧
    (CacheService.get "w" 5 dbExpiredCacheState).2.dbTier "w" = none := by
  refine ⟨(cache_ttl_semantics "k" 37 emptyCacheState 0 5).1 (by omega),
    (cache_ttl_semantics "k" 37 emptyCacheState 0 0).2.1,
    (cache_ttl_semantics "m" 0 memHitCacheState 0 0).2.2.1 ⟨42, 10⟩ rfl
      (by norm_num),
    ?_, ?_⟩
  · exact ((cache_ttl_semantics "w" 0 dbExpiredCacheState 5 5).2.2.2 ⟨7, 3⟩
      rfl rfl (by norm_num)).1
  · exact ((cache_ttl_semantics "w" 0 dbExpiredCacheState 5 5).2.2.2 ⟨7, 3⟩
      rfl rfl (by norm_num)).2

/-- Every row matches its own key. -/
theorem sameKey_self (r : ForecastService.PredictionRecord) :
    ForecastService.sameKey r.hospital_id r.date r = true := by
  simp [ForecastService.sameKey]

/-- `replaceFirst` keeps the count of key-matching rows, and when at
most one row matched beforehand, every matching row afterwards is the
new row. -/
theorem replaceFirst_spec (l : List ForecastService.PredictionRecord)
    (r : ForecastService.PredictionRecord)
    (hinv : l.countP (ForecastService.sameKey r.hospital_id r.date) ≤ 1) :
    (ForecastService.replaceFirst l r).countP
        (ForecastService.sameKey r.hospital_id r.date)
      = l.countP (ForecastService.sameKey r.hospital_id r.date) ∧
    ∀ p ∈ ForecastService.replaceFirst l r,
      ForecastService.sameKey r.hospital_id r.date p = true → p = r := by
  induction l with
  | nil => simp [ForecastService.replaceFirst]
  | cons p rest ih =>
    by_cases hp : ForecastService.sameKey r.hospital_id r.date p = true
    · have hrest : rest.countP (ForecastService.sameKey r.hospital_id r.date) = 0 := by
        simp only [List.countP_cons, hp, if_true] at hinv
        omega
      have hrepl : ForecastService.replaceFirst (p :: rest) r = r :: rest := by
        simp [ForecastService.replaceFirst, hp]
      refine ⟨?_, ?_⟩
      · rw [hrepl, List.countP_cons, List.countP_cons, hp, sameKey_self]
      · intro q hq hkq
        rw [hrepl] at hq
        rcases List.mem_cons.mp hq with hq | hq
        · exact hq
        · exact absurd hkq (by simpa using List.countP_eq_zero.mp hrest q hq)
    · have hp0 : ForecastService.sameKey r.hospital_id r.date p = false := by
        simpa using hp
      have hrepl : ForecastService.replaceFirst (p :: rest) r
          = p :: ForecastService.replaceFirst rest r := by
        simp [ForecastService.replaceFirst, hp0]
      have hinv2 : rest.countP (ForecastService.sameKey r.hospital_id r.date) ≤ 1 := by
        simp only [List.countP_cons, hp0, if_false] at hinv
        omega
      obtain ⟨ihc, ihm⟩ := ih hinv2
      refine ⟨?_, ?_⟩
      · rw [hrepl, List.countP_cons, List.countP_cons, hp0, ihc]
      · intro q hq hkq
        rw [hrepl] at hq
        rcases List.mem_cons.mp hq with hq | hq
        · exact absurd hkq (by simp [hq, hp0])
        · exact ihm q hq hkq

/-- One upsert: starting from a table with at most one row for the new
row's key, afterwards exactly one row has that key and every row with
that key is the new row. -/
theorem upsert_spec (db : List ForecastService.PredictionRecord)
    (r : ForecastService.PredictionRecord)
    (hinv : db.countP (ForecastService.sameKey r.hospital_id r.date) ≤ 1) :
    (ForecastService.upsert db r).countP
        (ForecastService.sameKey r.hospital_id r.date) = 1 ∧
    ∀ p ∈ ForecastService.upsert db r,
      ForecastService.sameKey r.hospital_id r.date p = true → p = r := by
  unfold ForecastService.upsert
  cases hfind : db.find? (ForecastService.sameKey r.hospital_id r.date) with
  | none =>
    have hzero : db.countP (ForecastService.sameKey r.hospital_id r.date) = 0 := by
      refine List.countP_eq_zero.mpr ?_
      intro a ha
      exact List.find?_eq_none.mp hfind a ha
    refine ⟨?_, ?_⟩
    · rw [List.countP_append, hzero, List.countP_cons]
      simp [sameKey_self]
    · intro q hq hkq
      rcases List.mem_append.mp hq with hq | hq
      · exact absurd hkq (by simpa using List.countP_eq_zero.mp hzero q hq)
      · simpa using hq
  | some x =>
    have hx : ForecastService.sameKey r.hospital_id r.date x = true :=
      List.find?_some hfind
    have hmem : x ∈ db := List.mem_of_find?_eq_some hfind
    have hpos : 0 < db.countP (ForecastService.sameKey r.hospital_id r.date) :=
      List.countP_pos_iff.mpr ⟨x, hmem, hx⟩
    have hone : db.countP (ForecastService.sameKey r.hospital_id r.date) = 1 := by
      omega
    obtain ⟨hc, hm⟩ := replaceFirst_spec db r hinv
    exact ⟨by rw [hc, hone], hm⟩

/-- C8: running the persistence step twice for the same
(hospital_id, date) — starting from any table satisfying the
uniqueness invariant — leaves exactly one row for that pair, and that
row carries the second run's values: the second write overwrites
rather than inserting a duplicate. -/
theorem upsert_idempotent_per_day (db : List ForecastService.PredictionRecord)
    (r1 r2 : ForecastService.PredictionRecord)
    (hid : r1.hospital_id = r2.hospital_id) (hdate : r1.date = r2.date)
    (hinv : db.countP (ForecastService.sameKey r2.hospital_id r2.date) ≤ 1) :
    (ForecastService.upsert (ForecastService.upsert db r1) r2).countP
        (ForecastService.sameKey r2.hospital_id r2.date) = 1 ∧
    ∀ p ∈ ForecastService.upsert (ForecastService.upsert db r1) r2,
      ForecastService.sameKey r2.hospital_id r2.date p = true → p = r2 := by
  have hk : ForecastService.sameKey r1.hospital_id r1.date
      = ForecastService.sameKey r2.hospital_id r2.date := by
    rw [hid, hdate]
  have h1 := (upsert_spec db r1 (by rw [hk]; exact hinv)).1
  rw [hk] at h1
  exact upsert_spec (ForecastService.upsert db r1) r2 (le_of_eq h1)

/-- C8 witness: two concrete runs for hospital 1 on day 5 leave exactly
one row, and it carries the second run's values. -/
theorem upsert_idempotent_per_day_witness :
    (ForecastService.upsert (ForecastService.upsert [] runOneRecord)
        runTwoRecord).countP (ForecastService.sameKey 1 5) = 1 ∧
    ∀ p ∈ ForecastService.upsert (ForecastService.upsert [] runOneRecord)
        runTwoRecord,
      ForecastService.sameKey 1 5 p = true → p = runTwoRecord :=
  upsert_idempotent_per_day [] runOneRecord runTwoRecord rfl rfl (by simp)

end Hospital
